import Mathlib

/-!
Shallow embedding of `src/PM_agent.py` (Project Management Agent, CrewAI).

Python strings become Lean `String`, Python ints become `Nat` (all the
quantities involved are non-negative), Python floats become `ℚ` (the cost
arithmetic is sums and products of decimal literals). Mutable objects
(`TokenUsageTracker`, `ProjectManagementSystem`) become structures with
explicit state passing. The external CrewAI `Crew.kickoff` execution and the
language-generation provider are modelled explicitly (see `runSeq`), since
they are external collaborators, not part of the repository source.
-/

namespace PMAgent

/-- A CrewAI `Agent` as constructed in `ProjectManagementAgents`
(src/PM_agent.py lines 33-86): role, goal and backstory strings.
`verbose`/`allow_delegation`/`llm` carry no logic relevant here. -/
structure Agent where
  role : String
  goal : String
  backstory : String
deriving DecidableEq

/-- `ProjectManagementAgents.project_planner` (lines 37-48). -/
def project_planner : Agent :=
  { role := "Project Planner"
  , goal := "Create comprehensive project plans with clear objectives and milestones"
  , backstory := "You are an experienced project planner with 10+ years \n            of experience in breaking down complex projects into manageable tasks. \n            You excel at identifying dependencies and creating realistic timelines." }

/-- `ProjectManagementAgents.task_allocator` (lines 50-61). -/
def task_allocator : Agent :=
  { role := "Task Allocator"
  , goal := "Efficiently allocate tasks based on team capabilities and availability"
  , backstory := "You are a resource management specialist who understands \n            team dynamics and can match tasks with the right team members based \n            on their skills and workload." }

/-- `ProjectManagementAgents.progress_monitor` (lines 63-74). -/
def progress_monitor : Agent :=
  { role := "Progress Monitor"
  , goal := "Track project progress and identify potential risks or delays"
  , backstory := "You are a detail-oriented project monitor who tracks \n            progress, identifies bottlenecks, and suggests corrective actions \n            to keep projects on schedule." }

/-- `ProjectManagementAgents.quality_reviewer` (lines 76-86). -/
def quality_reviewer : Agent :=
  { role := "Quality Reviewer"
  , goal := "Ensure project deliverables meet quality standards"
  , backstory := "You are a quality assurance expert who reviews project \n            outputs and ensures they meet the defined standards and requirements." }

/-- A CrewAI `Task` as constructed in `ProjectManagementTasks`
(src/PM_agent.py lines 89-167): rendered description (the f-string with the
caller text already substituted), the agent it is bound to, and the
expected-output text. -/
structure Task where
  description : String
  agent : Agent
  expected_output : String
deriving DecidableEq

/-- `ProjectManagementTasks.create_project_plan` (lines 93-109).
The f-string is transcribed literally, `\x7bproject_description\x7d`
replaced by concatenation. -/
def create_project_plan (agent : Agent) (project_description : String) : Task :=
  { description :=
      "\n            Create a detailed project plan for: " ++ project_description ++
      "\n            \n            Your plan should include:\n            1. Project objectives and scope\n            2. Key milestones and deliverables\n            3. Timeline with phases\n            4. Required resources\n            5. Success criteria\n            6. Potential risks and mitigation strategies\n            "
  , agent := agent
  , expected_output := "A comprehensive project plan with all required elements" }

/-- `ProjectManagementTasks.allocate_tasks` (lines 111-129). Note the
`project_plan` placeholder is filled with whatever string the caller passes
as the second argument. -/
def allocate_tasks (agent : Agent) (project_plan : String) (team_info : String) : Task :=
  { description :=
      "\n            Based on the project plan and team information, allocate tasks:\n            \n            Project Plan: " ++ project_plan ++
      "\n            Team Information: " ++ team_info ++
      "\n            \n            Create task assignments that consider:\n            1. Team member skills and expertise\n            2. Current workload and availability\n            3. Task dependencies\n            4. Priority levels\n            5. Estimated effort for each task\n            "
  , agent := agent
  , expected_output := "Detailed task allocation with assignments and timelines" }

/-- `ProjectManagementTasks.monitor_progress` (lines 131-148). -/
def monitor_progress (agent : Agent) (project_status : String) : Task :=
  { description :=
      "\n            Analyze the current project status and provide insights:\n            \n            Current Status: " ++ project_status ++
      "\n            \n            Your analysis should include:\n            1. Overall progress assessment\n            2. Completed vs pending tasks\n            3. Identified bottlenecks or delays\n            4. Risk assessment\n            5. Recommended actions to stay on track\n            "
  , agent := agent
  , expected_output := "Progress report with analysis and recommendations" }

/-- `ProjectManagementTasks.review_quality` (lines 150-167). -/
def review_quality (agent : Agent) (deliverables : String) : Task :=
  { description :=
      "\n            Review the project deliverables for quality:\n            \n            Deliverables: " ++ deliverables ++
      "\n            \n            Your review should assess:\n            1. Completeness of deliverables\n            2. Compliance with requirements\n            3. Quality standards met\n            4. Areas for improvement\n            5. Final recommendations\n            "
  , agent := agent
  , expected_output := "Quality review report with detailed assessment" }

/-- One entry of `TokenUsageTracker.session_history` (lines 180-185):
the dict appended by `add_usage`. -/
structure UsageRecord where
  timestamp : String
  operation : String
  tokens : Nat
  cost : ℚ
deriving DecidableEq

/-- `TokenUsageTracker` state (lines 170-174): running totals plus the
append-only history list. -/
structure TokenUsageTracker where
  total_tokens : Nat
  total_cost : ℚ
  session_history : List UsageRecord
deriving DecidableEq

/-- `TokenUsageTracker.__init__` (lines 171-174). -/
def TokenUsageTracker.init : TokenUsageTracker :=
  { total_tokens := 0, total_cost := 0, session_history := [] }

/-- `TokenUsageTracker.add_usage` (lines 176-185). The wall-clock timestamp
is passed in as `now`. -/
def TokenUsageTracker.add_usage (t : TokenUsageTracker) (now : String)
    (tokens_used : Nat) (cost : ℚ) (operation : String) : TokenUsageTracker :=
  { total_tokens := t.total_tokens + tokens_used
  , total_cost := t.total_cost + cost
  , session_history := t.session_history ++
      [{ timestamp := now, operation := operation, tokens := tokens_used, cost := cost }] }

/-- The dict returned by `TokenUsageTracker.get_summary` (lines 187-194). -/
structure UsageSummary where
  total_tokens : Nat
  total_cost : ℚ
  operations : Nat
  history : List UsageRecord
deriving DecidableEq

/-- `TokenUsageTracker.get_summary` (lines 187-194). -/
def TokenUsageTracker.get_summary (t : TokenUsageTracker) : UsageSummary :=
  { total_tokens := t.total_tokens
  , total_cost := t.total_cost
  , operations := t.session_history.length
  , history := t.session_history }

/-- The records displayed by `TokenUsageTracker.format_summary`
(lines 196-212): Python `summary['history'][-5:]`, i.e. the last 5 entries
(all of them when fewer than 5 exist). -/
def TokenUsageTracker.format_summary_recent (t : TokenUsageTracker) : List UsageRecord :=
  (t.get_summary).history.drop ((t.get_summary).history.length - 5)

/-- The history rows rendered by `PDFReportGenerator.generate_project_report`
(line 311): Python `token_usage['history'][-10:]`, i.e. the last 10 entries. -/
def pdf_history_rows (token_usage : UsageSummary) : List UsageRecord :=
  token_usage.history.drop (token_usage.history.length - 10)

/-- `ProjectManagementSystem._estimate_tokens_and_cost` (lines 355-362):
`estimated_tokens = len(text) // 4`;
`estimated_cost = (estimated_tokens / 1_000_000) * 9.0`. -/
def estimate_tokens_and_cost (text : String) : Nat × ℚ :=
  let estimated_tokens : Nat := text.length / 4
  let estimated_cost : ℚ := ((estimated_tokens : ℚ) / 1000000) * 9
  (estimated_tokens, estimated_cost)

/-- The external language-generation provider: given an agent (role, goal,
backstory) and the rendered task description, returns the generated text or
fails. The spec treats this as an external collaborator that returns a
string or raises; the error payload is the underlying cause message. -/
def Provider : Type := Agent → String → Except String String

/-- Modelled from the spec: the external CrewAI `Crew.kickoff` with
`Process.sequential` (used at src/PM_agent.py lines 384-394 and 428-438) is
not repository code; the spec describes it in section 4.3 as strictly
sequential execution of the task list, one provider call per stage, each
call sent the stage's role and rendered instructions, aborting the whole run
on the first failure, the final result being the last stage's output.
Returns the trace of provider calls actually made (in order) together with
the result. -/
def runSeq (provider : Provider) : List Task → List (Agent × String) × Except String (Option String)
  | [] => ([], Except.ok none)
  | t :: ts =>
    match provider t.agent t.description with
    | Except.error e => ([(t.agent, t.description)], Except.error e)
    | Except.ok out =>
      match runSeq provider ts with
      | (calls, Except.ok none) => ((t.agent, t.description) :: calls, Except.ok (some out))
      | (calls, res) => ((t.agent, t.description) :: calls, res)

/-- `ProjectManagementSystem.report_data` (line 353): a dict that only ever
holds the six keys written at lines 397-401 and 441-445, modelled as one
optional field per key (`none` = key absent). -/
structure ReportData where
  project_description : Option String
  team_info : Option String
  project_plan : Option String
  project_status : Option String
  deliverables : Option String
  status_analysis : Option String
deriving DecidableEq

/-- The empty `report_data = {}` dict of `ProjectManagementSystem.__init__`. -/
def ReportData.init : ReportData :=
  { project_description := none, team_info := none, project_plan := none
  , project_status := none, deliverables := none, status_analysis := none }

/-- `ProjectManagementSystem` mutable state (lines 347-353): the token
tracker and the report-data dict. `agents`, `tasks` and `pdf_generator` hold
no state. -/
structure ProjectManagementSystem where
  token_tracker : TokenUsageTracker
  report_data : ReportData
deriving DecidableEq

/-- `ProjectManagementSystem.__init__` (lines 348-353). -/
def ProjectManagementSystem.init : ProjectManagementSystem :=
  { token_tracker := TokenUsageTracker.init, report_data := ReportData.init }

/-- The crew agent list of `run_project_planning` (line 386):
planner, allocator and monitor are all instantiated and wired into the crew. -/
def planning_crew_agents : List Agent :=
  [project_planner, task_allocator, progress_monitor]

/-- The crew task list of `run_project_planning` (lines 373-387): the
planning task over `project_description`, then the allocation task that is
given `project_description` (not any planner output) and `team_info`. -/
def planning_tasks (project_description team_info : String) : List Task :=
  [ create_project_plan project_planner project_description
  , allocate_tasks task_allocator project_description team_info ]

/-- The crew agent list of `analyze_project_status` (line 430). -/
def analysis_crew_agents : List Agent :=
  [progress_monitor, quality_reviewer]

/-- The crew task list of `analyze_project_status` (lines 418-431). -/
def analysis_tasks (project_status deliverables : String) : List Task :=
  [ monitor_progress progress_monitor project_status
  , review_quality quality_reviewer deliverables ]

/-- `ProjectManagementSystem.run_project_planning` (lines 364-408), with the
provider and the wall clock passed explicitly. Returns the updated system
state, the trace of provider calls, and the result (`Except.error` when the
crew execution raised: the Python code has no try/except here, so the
exception propagates and the state updates at lines 397-406 never run). -/
def run_project_planning (provider : Provider) (now : String)
    (sys : ProjectManagementSystem) (project_description team_info : String) :
    ProjectManagementSystem × List (Agent × String) × Except String String :=
  let tasks := planning_tasks project_description team_info
  let input_text := project_description ++ " " ++ team_info
  match runSeq provider tasks with
  | (calls, Except.error e) => (sys, calls, Except.error e)
  | (calls, Except.ok none) => (sys, calls, Except.error "no tasks")
  | (calls, Except.ok (some result)) =>
    let report_data :=
      { sys.report_data with
          project_description := some project_description
        , team_info := some team_info
        , project_plan := some result }
    let result_text := result
    let est := estimate_tokens_and_cost (input_text ++ result_text)
    let token_tracker :=
      sys.token_tracker.add_usage now est.1 est.2 "Project Planning"
    ({ token_tracker := token_tracker, report_data := report_data },
      calls, Except.ok result)

/-- `ProjectManagementSystem.analyze_project_status` (lines 410-452),
analogous to `run_project_planning`. -/
def analyze_project_status (provider : Provider) (now : String)
    (sys : ProjectManagementSystem) (project_status deliverables : String) :
    ProjectManagementSystem × List (Agent × String) × Except String String :=
  let tasks := analysis_tasks project_status deliverables
  let input_text := project_status ++ " " ++ deliverables
  match runSeq provider tasks with
  | (calls, Except.error e) => (sys, calls, Except.error e)
  | (calls, Except.ok none) => (sys, calls, Except.error "no tasks")
  | (calls, Except.ok (some result)) =>
    let report_data :=
      { sys.report_data with
          project_status := some project_status
        , deliverables := some deliverables
        , status_analysis := some result }
    let result_text := result
    let est := estimate_tokens_and_cost (input_text ++ result_text)
    let token_tracker :=
      sys.token_tracker.add_usage now est.1 est.2 "Status Analysis"
    ({ token_tracker := token_tracker, report_data := report_data },
      calls, Except.ok result)

/-- The Streamlit guard on the status-analysis button (line 604):
`if analyze_button and status_info and deliverables_info:` — the entry point
is only called when the button fired and both strings are non-empty (Python
truthiness). -/
def analyze_button_fires (analyze_button : Bool)
    (status_info deliverables_info : String) : Bool :=
  analyze_button && !status_info.isEmpty && !deliverables_info.isEmpty

/-- The Streamlit guard on the planning button (line 549):
`if plan_button and project_desc and team_info:`. -/
def plan_button_fires (plan_button : Bool) (project_desc team_info : String) : Bool :=
  plan_button && !project_desc.isEmpty && !team_info.isEmpty

/-- One content-carrying element of the PDF "story" built by
`PDFReportGenerator.generate_project_report` (src/PM_agent.py lines 236-344).
Pure layout elements (Spacer, table styling, fonts, page size) carry no data
and are omitted; every element that carries report content is kept. -/
inductive StoryItem where
  | titleItem (text : String)
  | generated (report_date : String)
  | overviewHeading
  | descriptionItem (text : String)
  | teamItem (text : String)
  | planHeading
  | planItem (text : String)
  | statusHeading
  | statusAnalysisItem (text : String)
  | usageHeading
  | usageTable (total_tokens : Nat) (total_cost : ℚ) (operations : Nat)
  | historyHeading
  | historyTable (rows : List UsageRecord)
  | footerItem
deriving DecidableEq

/-- `PDFReportGenerator.generate_project_report` (lines 236-344): the story
content as a function of the report-data dict, the usage summary and the
generation timestamp (`datetime.now()` at line 252, passed explicitly).
Section inclusion follows the `if key in project_data` tests of the source;
note that the `project_status` and `deliverables` keys are never tested or
rendered there. -/
def generate_project_report (project_data : ReportData)
    (token_usage : UsageSummary) (report_date : String) : List StoryItem :=
  [StoryItem.titleItem "🚀 Project Management Report",
   StoryItem.generated report_date]
  ++ (match project_data.project_description with
      | some d => [StoryItem.overviewHeading, StoryItem.descriptionItem d]
      | none => [])
  ++ (match project_data.team_info with
      | some t => [StoryItem.teamItem t]
      | none => [])
  ++ (match project_data.project_plan with
      | some p => [StoryItem.planHeading, StoryItem.planItem (p.replace "\n" "<br/>")]
      | none => [])
  ++ (match project_data.status_analysis with
      | some a => [StoryItem.statusHeading, StoryItem.statusAnalysisItem (a.replace "\n" "<br/>")]
      | none => [])
  ++ [StoryItem.usageHeading,
      StoryItem.usageTable token_usage.total_tokens token_usage.total_cost token_usage.operations]
  ++ (if token_usage.history.isEmpty then []
      else [StoryItem.historyHeading, StoryItem.historyTable (pdf_history_rows token_usage)])
  ++ [StoryItem.footerItem]

/-- `ProjectManagementSystem.generate_pdf_report` (lines 454-459). -/
def generate_pdf_report (sys : ProjectManagementSystem) (report_date : String) : List StoryItem :=
  generate_project_report sys.report_data sys.token_tracker.get_summary report_date

/- ------------------------------------------------------------------ -/
/- Theorems                                                           -/
/- ------------------------------------------------------------------ -/

/-- C1: for every input text, the cost estimator returns
`units = floor(charCount / 4)` and `cost = units / 1000000 * 9`; it depends
only on the character count (determinism in `charCount`), and a zero-length
input yields `(0, 0)`. Being a total Lean function, it has no failure
modes. -/
theorem estimate_tokens_and_cost_spec :
    ∀ text : String,
      (estimate_tokens_and_cost text).1 = text.length / 4 ∧
      (estimate_tokens_and_cost text).2 = ((text.length / 4 : Nat) : ℚ) / 1000000 * 9 ∧
      (∀ other : String, other.length = text.length →
        estimate_tokens_and_cost other = estimate_tokens_and_cost text) ∧
      estimate_tokens_and_cost "" = (0, 0) := by
  intro text
  refine ⟨rfl, rfl, ?_, ?_⟩
  · intro other h
    simp [estimate_tokens_and_cost, h]
  · simp [estimate_tokens_and_cost]

/-- Witness for C1: the determinism hypothesis discharged at two concrete
five-character strings. -/
theorem estimate_tokens_and_cost_spec_witness :
    String.length "wxyzv" = String.length "abcde" ∧
    estimate_tokens_and_cost "wxyzv" = estimate_tokens_and_cost "abcde" :=
  ⟨rfl, (estimate_tokens_and_cost_spec "abcde").2.2.1 "wxyzv" rfl⟩

/-- A sequence of `add_usage` calls applied to a tracker state, in order. -/
def applyUsages (ops : List (String × Nat × ℚ × String)) (t : TokenUsageTracker) :
    TokenUsageTracker :=
  ops.foldl (fun s op => s.add_usage op.1 op.2.1 op.2.2.1 op.2.2.2) t

lemma add_usage_preserves_totals (t : TokenUsageTracker) (now : String)
    (tokens_used : Nat) (cost : ℚ) (operation : String)
    (h1 : t.total_tokens = (t.session_history.map UsageRecord.tokens).sum)
    (h2 : t.total_cost = (t.session_history.map UsageRecord.cost).sum) :
    (t.add_usage now tokens_used cost operation).total_tokens
      = ((t.add_usage now tokens_used cost operation).session_history.map UsageRecord.tokens).sum ∧
    (t.add_usage now tokens_used cost operation).total_cost
      = ((t.add_usage now tokens_used cost operation).session_history.map UsageRecord.cost).sum := by
  simp [TokenUsageTracker.add_usage, h1, h2]

lemma applyUsages_preserves_totals (ops : List (String × Nat × ℚ × String))
    (t : TokenUsageTracker)
    (h1 : t.total_tokens = (t.session_history.map UsageRecord.tokens).sum)
    (h2 : t.total_cost = (t.session_history.map UsageRecord.cost).sum) :
    (applyUsages ops t).total_tokens
      = ((applyUsages ops t).session_history.map UsageRecord.tokens).sum ∧
    (applyUsages ops t).total_cost
      = ((applyUsages ops t).session_history.map UsageRecord.cost).sum := by
  induction ops generalizing t with
  | nil => exact ⟨h1, h2⟩
  | cons op ops ih =>
    have h := add_usage_preserves_totals t op.1 op.2.1 op.2.2.1 op.2.2.2 h1 h2
    exact ih (t.add_usage op.1 op.2.1 op.2.2.1 op.2.2.2) h.1 h.2

/-- C2: after any sequence of `add_usage` calls starting from a fresh
tracker, the summary totals equal the sums over the recorded history; the
only operation touching the totals is `add_usage`, which increments them by
exactly the appended record's values. -/
theorem tracker_totals_are_sums :
    ∀ ops : List (String × Nat × ℚ × String),
      ((applyUsages ops TokenUsageTracker.init).get_summary).total_tokens
        = (((applyUsages ops TokenUsageTracker.init).session_history).map UsageRecord.tokens).sum ∧
      ((applyUsages ops TokenUsageTracker.init).get_summary).total_cost
        = (((applyUsages ops TokenUsageTracker.init).session_history).map UsageRecord.cost).sum ∧
      (∀ t now tok cost op,
        (TokenUsageTracker.add_usage t now tok cost op).total_tokens = t.total_tokens + tok ∧
        (TokenUsageTracker.add_usage t now tok cost op).total_cost = t.total_cost + cost) := by
  intro ops
  have h := applyUsages_preserves_totals ops TokenUsageTracker.init rfl rfl
  exact ⟨h.1, h.2, fun t now tok cost op => ⟨rfl, rfl⟩⟩

/-- C3: the recent-records view of `format_summary` is the suffix of the
last 5 records (all of them when fewer than 5 exist), the PDF history rows
are the suffix of the last 10, both in insertion order; and `add_usage`
only ever appends, so no record is removed or mutated. -/
theorem recent_records_spec :
    ∀ t : TokenUsageTracker,
      t.format_summary_recent.length = min 5 t.session_history.length ∧
      t.session_history
        = t.session_history.take (t.session_history.length - 5) ++ t.format_summary_recent ∧
      (∀ u : UsageSummary,
        (pdf_history_rows u).length = min 10 u.history.length ∧
        u.history = u.history.take (u.history.length - 10) ++ pdf_history_rows u) ∧
      (∀ now tok cost op,
        (t.add_usage now tok cost op).session_history
          = t.session_history ++
            [{ timestamp := now, operation := op, tokens := tok, cost := cost }]) := by
  intro t
  refine ⟨?_, ?_, ?_, fun now tok cost op => rfl⟩
  · simp [TokenUsageTracker.format_summary_recent, TokenUsageTracker.get_summary]
    omega
  · simp [TokenUsageTracker.format_summary_recent, TokenUsageTracker.get_summary]
  · intro u
    constructor
    · simp [pdf_history_rows]
      omega
    · simp [pdf_history_rows]

/-- C4: if the crew execution fails (the provider raises at any stage),
both entry points leave the whole system state — report data and usage
tracker — exactly as it was, and return the error to the caller: the Python
methods mutate `report_data` and `token_tracker` only after `crew.kickoff()`
returns, and have no exception handler of their own. -/
theorem provider_failure_atomicity :
    (∀ provider now sys pd ti e,
      (run_project_planning provider now sys pd ti).2.2 = Except.error e →
      (run_project_planning provider now sys pd ti).1 = sys) ∧
    (∀ provider now sys ps dl e,
      (analyze_project_status provider now sys ps dl).2.2 = Except.error e →
      (analyze_project_status provider now sys ps dl).1 = sys) := by
  constructor
  · intro provider now sys pd ti e h
    rcases hseq : runSeq provider (planning_tasks pd ti) with ⟨calls, res⟩
    rcases res with e' | o
    · simp [run_project_planning, hseq]
    · rcases o with _ | r
      · simp [run_project_planning, hseq]
      · simp [run_project_planning, hseq] at h
  · intro provider now sys ps dl e h
    rcases hseq : runSeq provider (analysis_tasks ps dl) with ⟨calls, res⟩
    rcases res with e' | o
    · simp [analyze_project_status, hseq]
    · rcases o with _ | r
      · simp [analyze_project_status, hseq]
      · simp [analyze_project_status, hseq] at h

/-- A provider that always fails, used to witness C4. -/
def failing_provider : Provider := fun _ _ => Except.error "boom"

/-- Witness for C4: a concrete failing run of each entry point leaves the
freshly initialized system untouched. -/
theorem provider_failure_atomicity_witness :
    (run_project_planning failing_provider "10:00:00" ProjectManagementSystem.init
        "Build a to-do app" "2 devs, 1 designer").1 = ProjectManagementSystem.init ∧
    (analyze_project_status failing_provider "10:00:00" ProjectManagementSystem.init
        "Week 3" "API docs").1 = ProjectManagementSystem.init :=
  ⟨provider_failure_atomicity.1 failing_provider "10:00:00" ProjectManagementSystem.init
      "Build a to-do app" "2 devs, 1 designer" "boom" rfl,
   provider_failure_atomicity.2 failing_provider "10:00:00" ProjectManagementSystem.init
      "Week 3" "API docs" "boom" rfl⟩

/-- A fixed successful planning run used to refute C5: a stub provider that
answers "PLAN" to every call, both stages succeed. -/
def c5_run : ProjectManagementSystem × List (Agent × String) × Except String String :=
  run_project_planning (fun _ _ => Except.ok "PLAN") "10:00:00"
    ProjectManagementSystem.init "Build a to-do app" "2 devs, 1 designer"

/-- Counterexample to C5: in a successful two-stage planning run the ledger
gains exactly one record, labeled with the operation name
"Project Planning" — not two records labeled with the stage role names. -/
theorem single_record_per_run_counterexample :
    c5_run.2.2 = Except.ok "PLAN" ∧
    c5_run.2.1.length = 2 ∧
    c5_run.1.token_tracker.session_history.map UsageRecord.operation = ["Project Planning"] ∧
    c5_run.1.token_tracker.session_history.length ≠ 2 := by
  refine ⟨rfl, rfl, rfl, ?_⟩
  decide

/-- C5 (amended): a pipeline run in which every stage succeeds appends
exactly ONE new record to the ledger — one per run, not one per stage —
labeled with the run's operation name ("Project Planning" or
"Status Analysis"), whose units are the estimator applied to the
concatenation of the input text and the final result text (a `Nat`, hence
non-negative). -/
theorem successful_run_appends_one_record :
    (∀ provider now sys pd ti r,
      (run_project_planning provider now sys pd ti).2.2 = Except.ok r →
      (run_project_planning provider now sys pd ti).1.token_tracker.session_history
        = sys.token_tracker.session_history ++
          [{ timestamp := now, operation := "Project Planning"
           , tokens := (pd ++ " " ++ ti ++ r).length / 4
           , cost := (((pd ++ " " ++ ti ++ r).length / 4 : Nat) : ℚ) / 1000000 * 9 }]) ∧
    (∀ provider now sys ps dl r,
      (analyze_project_status provider now sys ps dl).2.2 = Except.ok r →
      (analyze_project_status provider now sys ps dl).1.token_tracker.session_history
        = sys.token_tracker.session_history ++
          [{ timestamp := now, operation := "Status Analysis"
           , tokens := (ps ++ " " ++ dl ++ r).length / 4
           , cost := (((ps ++ " " ++ dl ++ r).length / 4 : Nat) : ℚ) / 1000000 * 9 }]) := by
  constructor
  · intro provider now sys pd ti r h
    rcases hseq : runSeq provider (planning_tasks pd ti) with ⟨calls, res⟩
    rcases res with e' | o
    · simp [run_project_planning, hseq] at h
    · rcases o with _ | result
      · simp [run_project_planning, hseq] at h
      · simp [run_project_planning, hseq] at h
        subst h
        simp [run_project_planning, hseq, TokenUsageTracker.add_usage,
          estimate_tokens_and_cost, String.length_append]
  · intro provider now sys ps dl r h
    rcases hseq : runSeq provider (analysis_tasks ps dl) with ⟨calls, res⟩
    rcases res with e' | o
    · simp [analyze_project_status, hseq] at h
    · rcases o with _ | result
      · simp [analyze_project_status, hseq] at h
      · simp [analyze_project_status, hseq] at h
        subst h
        simp [analyze_project_status, hseq, TokenUsageTracker.add_usage,
          estimate_tokens_and_cost, String.length_append]

/-- Witness for the amended C5: concrete successful runs of both entry
points, each appending its single labeled record. -/
theorem successful_run_appends_one_record_witness :
    (run_project_planning (fun _ _ => Except.ok "P") "09:00:00"
        ProjectManagementSystem.init "a" "b").1.token_tracker.session_history
      = ProjectManagementSystem.init.token_tracker.session_history ++
        [{ timestamp := "09:00:00", operation := "Project Planning"
         , tokens := ("a" ++ " " ++ "b" ++ "P").length / 4
         , cost := ((("a" ++ " " ++ "b" ++ "P").length / 4 : Nat) : ℚ) / 1000000 * 9 }] ∧
    (analyze_project_status (fun _ _ => Except.ok "Q") "09:00:01"
        ProjectManagementSystem.init "c" "d").1.token_tracker.session_history
      = ProjectManagementSystem.init.token_tracker.session_history ++
        [{ timestamp := "09:00:01", operation := "Status Analysis"
         , tokens := ("c" ++ " " ++ "d" ++ "Q").length / 4
         , cost := ((("c" ++ " " ++ "d" ++ "Q").length / 4 : Nat) : ℚ) / 1000000 * 9 }] :=
  ⟨successful_run_appends_one_record.1 (fun _ _ => Except.ok "P") "09:00:00"
      ProjectManagementSystem.init "a" "b" "P" rfl,
   successful_run_appends_one_record.2 (fun _ _ => Except.ok "Q") "09:00:01"
      ProjectManagementSystem.init "c" "d" "Q" rfl⟩

lemma runSeq_two_ok (provider : Provider) (t1 t2 : Task) (o1 o2 : String)
    (h1 : provider t1.agent t1.description = Except.ok o1)
    (h2 : provider t2.agent t2.description = Except.ok o2) :
    runSeq provider [t1, t2]
      = ([(t1.agent, t1.description), (t2.agent, t2.description)], Except.ok (some o2)) := by
  simp [runSeq, h1, h2]

lemma runSeq_two_fail1 (provider : Provider) (t1 t2 : Task) (e : String)
    (h1 : provider t1.agent t1.description = Except.error e) :
    runSeq provider [t1, t2] = ([(t1.agent, t1.description)], Except.error e) := by
  simp [runSeq, h1]

lemma runSeq_two_fail2 (provider : Provider) (t1 t2 : Task) (o1 : String) (e : String)
    (h1 : provider t1.agent t1.description = Except.ok o1)
    (h2 : provider t2.agent t2.description = Except.error e) :
    runSeq provider [t1, t2]
      = ([(t1.agent, t1.description), (t2.agent, t2.description)], Except.error e) := by
  simp [runSeq, h1, h2]

/-- C6: whenever the provider answers every request, a planning run makes
exactly two provider calls, first as the Planner, then as the Allocator;
the Monitor agent is wired into the crew's agent list but — having no task
bound to it — is never the agent of any provider call, whatever the
provider does. -/
theorem planning_provider_call_order :
    (∀ (provider : Provider) (now : String) (sys : ProjectManagementSystem) (pd ti : String),
      (∀ a s, ∃ o, provider a s = Except.ok o) →
      ((run_project_planning provider now sys pd ti).2.1.map (fun c => c.1.role))
        = ["Project Planner", "Task Allocator"]) ∧
    progress_monitor ∈ planning_crew_agents ∧
    (∀ (provider : Provider) (now : String) (sys : ProjectManagementSystem) (pd ti : String),
      progress_monitor.role ∉
        ((run_project_planning provider now sys pd ti).2.1.map (fun c => c.1.role))) := by
  refine ⟨?_, by simp [planning_crew_agents], ?_⟩
  · intro provider now sys pd ti hp
    obtain ⟨o1, h1⟩ := hp (create_project_plan project_planner pd).agent
      (create_project_plan project_planner pd).description
    obtain ⟨o2, h2⟩ := hp (allocate_tasks task_allocator pd ti).agent
      (allocate_tasks task_allocator pd ti).description
    have hr := runSeq_two_ok provider _ _ o1 o2 h1 h2
    simp only [run_project_planning, planning_tasks]
    rw [hr]
    simp [create_project_plan, allocate_tasks, project_planner, task_allocator]
  · intro provider now sys pd ti
    rcases h1 : provider (create_project_plan project_planner pd).agent
        (create_project_plan project_planner pd).description with e1 | o1
    · have hr := runSeq_two_fail1 provider (create_project_plan project_planner pd)
        (allocate_tasks task_allocator pd ti) e1 h1
      simp only [run_project_planning, planning_tasks]
      rw [hr]
      simp [create_project_plan, project_planner, progress_monitor]
    · rcases h2 : provider (allocate_tasks task_allocator pd ti).agent
          (allocate_tasks task_allocator pd ti).description with e2 | o2
      · have hr := runSeq_two_fail2 provider (create_project_plan project_planner pd)
          (allocate_tasks task_allocator pd ti) o1 e2 h1 h2
        simp only [run_project_planning, planning_tasks]
        rw [hr]
        simp [create_project_plan, allocate_tasks, project_planner, task_allocator,
          progress_monitor]
      · have hr := runSeq_two_ok provider (create_project_plan project_planner pd)
          (allocate_tasks task_allocator pd ti) o1 o2 h1 h2
        simp only [run_project_planning, planning_tasks]
        rw [hr]
        simp [create_project_plan, allocate_tasks, project_planner, task_allocator,
          progress_monitor]

/-- Witness for C6: the call-order hypothesis discharged with a provider
that answers "X" to everything. -/
theorem planning_provider_call_order_witness :
    ((run_project_planning (fun _ _ => Except.ok "X") "10:00:00"
        ProjectManagementSystem.init "d" "i").2.1.map (fun c => c.1.role))
      = ["Project Planner", "Task Allocator"] :=
  planning_provider_call_order.1 (fun _ _ => Except.ok "X") "10:00:00"
    ProjectManagementSystem.init "d" "i" (fun _ _ => ⟨"X", rfl⟩)

lemma data_append (a b : String) : (a ++ b).data = a.data ++ b.data := by
  cases a
  cases b
  rfl

/-- A fixed planning run with a stub provider that answers "ZZZ" to every
call, used to refute C7: neither input string nor any template text
contains the character Z, so "ZZZ" can only occur in the allocator
instructions when threaded from the planner output. -/
def c7_run : ProjectManagementSystem × List (Agent × String) × Except String String :=
  run_project_planning (fun _ _ => Except.ok "ZZZ") "10:00:00"
    ProjectManagementSystem.init "Build a to-do app" "2 devs, 1 designer"

/-- Counterexample to C7: in this concrete successful planning run the
planner stage's captured output is "ZZZ", yet "ZZZ" does not occur anywhere
in the allocator stage's rendered instructions — the `project_plan`
placeholder was filled with the caller's project description at task
construction time, before any provider call. -/
theorem planner_output_not_in_allocator_instructions :
    c7_run.2.1.map Prod.snd
      = [ (create_project_plan project_planner "Build a to-do app").description
        , (allocate_tasks task_allocator "Build a to-do app" "2 devs, 1 designer").description ] ∧
    ((fun _ _ => Except.ok "ZZZ" : Provider) project_planner
        (create_project_plan project_planner "Build a to-do app").description
      = Except.ok "ZZZ") ∧
    ¬ ("ZZZ".data <:+:
        (allocate_tasks task_allocator "Build a to-do app" "2 devs, 1 designer").description.data) := by
  refine ⟨rfl, rfl, ?_⟩
  intro h
  have hz : 'Z' ∈
      (allocate_tasks task_allocator "Build a to-do app" "2 devs, 1 designer").description.data :=
    h.subset (by decide)
  revert hz
  decide

set_option maxRecDepth 10000 in
/-- C7 (amended): the allocator stage's rendered instructions are fixed at
task-construction time from the caller inputs alone: the `project_plan`
placeholder holds the caller's `project_description` (the same text the
planner received), and the instructions of both provider calls equal the
pre-rendered task descriptions whatever the provider returns — the planner
output is never substituted into them. -/
theorem allocator_instructions_spec :
    ∀ pd ti : String,
      (planning_tasks pd ti).map Task.description
        = [ (create_project_plan project_planner pd).description
          , (allocate_tasks task_allocator pd ti).description ] ∧
      pd.data <:+: (allocate_tasks task_allocator pd ti).description.data ∧
      (∀ (provider : Provider) (now : String) (sys : ProjectManagementSystem) (out : String),
        (∀ a s, provider a s = Except.ok out) →
        (run_project_planning provider now sys pd ti).2.1.map Prod.snd
          = (planning_tasks pd ti).map Task.description) := by
  intro pd ti
  refine ⟨rfl, ?_, ?_⟩
  · refine ⟨("\n            Based on the project plan and team information, allocate tasks:\n            \n            Project Plan: ").data,
      ("\n            Team Information: ").data ++ ti.data ++
        ("\n            \n            Create task assignments that consider:\n            1. Team member skills and expertise\n            2. Current workload and availability\n            3. Task dependencies\n            4. Priority levels\n            5. Estimated effort for each task\n            ").data, ?_⟩
    simp only [allocate_tasks, data_append, List.append_assoc]
  · intro provider now sys out hp
    have h1 := hp (create_project_plan project_planner pd).agent
      (create_project_plan project_planner pd).description
    have h2 := hp (allocate_tasks task_allocator pd ti).agent
      (allocate_tasks task_allocator pd ti).description
    have hr := runSeq_two_ok provider _ _ out out h1 h2
    simp only [run_project_planning, planning_tasks]
    rw [hr]
    simp

/-- Witness for the amended C7: the provider-independence hypothesis
discharged with the constant "ZZZ" provider at concrete inputs. -/
theorem allocator_instructions_spec_witness :
    (run_project_planning (fun _ _ => Except.ok "ZZZ") "10:00:00"
        ProjectManagementSystem.init "Build a to-do app" "2 devs, 1 designer").2.1.map Prod.snd
      = (planning_tasks "Build a to-do app" "2 devs, 1 designer").map Task.description :=
  (allocator_instructions_spec "Build a to-do app" "2 devs, 1 designer").2.2
    (fun _ _ => Except.ok "ZZZ") "10:00:00" ProjectManagementSystem.init "ZZZ"
    (fun _ _ => rfl)

/-- A fixed status-analysis run with an empty project status, used to
refute C8: the entry point performs no input validation. -/
def c8_run : ProjectManagementSystem × List (Agent × String) × Except String String :=
  analyze_project_status (fun _ _ => Except.ok "OK") "11:00:00"
    ProjectManagementSystem.init "" "API docs"

/-- Counterexample to C8: calling `analyze_project_status` with an empty
project status makes two provider calls (not zero), completes normally
with no error of any kind, and appends a ledger record — no
`ValidationError` exists anywhere in the source. -/
theorem empty_status_no_validation_counterexample :
    c8_run.2.1.length = 2 ∧
    c8_run.2.2 = Except.ok "OK" ∧
    c8_run.1.token_tracker.session_history.length = 1 :=
  ⟨rfl, rfl, rfl⟩

/-- C8 (amended): the entry points perform no input validation. With any
willing provider, `analyze_project_status` on an empty status string still
makes its two provider calls, returns the final output, and appends one
ledger record; the only empty-input guard in the program is the Streamlit
button condition `if analyze_button and status_info and deliverables_info:`,
which merely never calls the entry point on empty input. -/
theorem no_entry_point_input_validation :
    ∀ (deliverables : String) (provider : Provider) (now : String)
      (sys : ProjectManagementSystem) (out : String),
      (∀ a s, provider a s = Except.ok out) →
      ((analyze_project_status provider now sys "" deliverables).2.1.length = 2 ∧
       (analyze_project_status provider now sys "" deliverables).2.2 = Except.ok out ∧
       (analyze_project_status provider now sys "" deliverables).1.token_tracker.session_history.length
         = sys.token_tracker.session_history.length + 1) ∧
      (∀ b, analyze_button_fires b "" deliverables = false) := by
  intro deliverables provider now sys out hp
  have h1 := hp (monitor_progress progress_monitor "").agent
    (monitor_progress progress_monitor "").description
  have h2 := hp (review_quality quality_reviewer deliverables).agent
    (review_quality quality_reviewer deliverables).description
  have hr := runSeq_two_ok provider _ _ out out h1 h2
  refine ⟨?_, ?_⟩
  · simp only [analyze_project_status, analysis_tasks]
    rw [hr]
    simp [TokenUsageTracker.add_usage]
  · intro b
    have he : ("" : String).isEmpty = true := rfl
    cases b <;> simp [analyze_button_fires, he]

/-- Witness for the amended C8: the hypothesis discharged with the constant
"OK" provider, empty status and concrete deliverables text. -/
theorem no_entry_point_input_validation_witness :
    (analyze_project_status (fun _ _ => Except.ok "OK") "11:00:01"
        ProjectManagementSystem.init "" "API docs").2.1.length = 2 ∧
    (analyze_project_status (fun _ _ => Except.ok "OK") "11:00:01"
        ProjectManagementSystem.init "" "API docs").2.2 = Except.ok "OK" ∧
    (analyze_project_status (fun _ _ => Except.ok "OK") "11:00:01"
        ProjectManagementSystem.init "" "API docs").1.token_tracker.session_history.length
      = ProjectManagementSystem.init.token_tracker.session_history.length + 1 :=
  (no_entry_point_input_validation "API docs" (fun _ _ => Except.ok "OK") "11:00:01"
    ProjectManagementSystem.init "OK" (fun _ _ => rfl)).1

/-- A report state whose only populated sections are `project_status` and
`deliverables`, used to refute C9. -/
def c9_report_data : ReportData :=
  { ReportData.init with
      project_status := some "Week 3: backend 70% complete"
    , deliverables := some "API docs" }

/-- The snapshot C9 is evaluated on. -/
def c9_story : List StoryItem :=
  generate_project_report c9_report_data TokenUsageTracker.init.get_summary
    "June 01, 2025 at 10:00 AM"

/-- Counterexample to C9: `project_status` and `deliverables` are populated
in the report state, yet the snapshot contains no section for either — the
generator never tests or renders those two keys, so the snapshot does not
include exactly the populated sections. -/
theorem populated_sections_omitted_counterexample :
    c9_report_data.project_status = some "Week 3: backend 70% complete" ∧
    c9_report_data.deliverables = some "API docs" ∧
    c9_story = [StoryItem.titleItem "🚀 Project Management Report",
                StoryItem.generated "June 01, 2025 at 10:00 AM",
                StoryItem.usageHeading,
                StoryItem.usageTable 0 0 0,
                StoryItem.footerItem] :=
  ⟨rfl, rfl, rfl⟩

def isDescriptionItem : StoryItem → Bool
  | StoryItem.descriptionItem _ => true
  | _ => false

def isTeamItem : StoryItem → Bool
  | StoryItem.teamItem _ => true
  | _ => false

def isPlanItem : StoryItem → Bool
  | StoryItem.planItem _ => true
  | _ => false

def isStatusAnalysisItem : StoryItem → Bool
  | StoryItem.statusAnalysisItem _ => true
  | _ => false

def isUsageTable : StoryItem → Bool
  | StoryItem.usageTable _ _ _ => true
  | _ => false

/-- C9 (amended): the snapshot is a pure function of the report state, the
ledger summary and the generation timestamp; it contains a section for a
populated key exactly when that key is one of `project_description`,
`team_info`, `project_plan`, `status_analysis` (absent keys are omitted with
no placeholder), while `project_status` and `deliverables` — though stored
in the report state — are never rendered; the ledger summary is always
included. -/
theorem report_snapshot_sections :
    ∀ (pd : ReportData) (usage : UsageSummary) (date : String) (vs vd : Option String),
      generate_project_report
          { pd with project_status := vs, deliverables := vd } usage date
        = generate_project_report pd usage date ∧
      (generate_project_report pd usage date).any isDescriptionItem
        = pd.project_description.isSome ∧
      (generate_project_report pd usage date).any isTeamItem = pd.team_info.isSome ∧
      (generate_project_report pd usage date).any isPlanItem = pd.project_plan.isSome ∧
      (generate_project_report pd usage date).any isStatusAnalysisItem
        = pd.status_analysis.isSome ∧
      (generate_project_report pd usage date).any isUsageTable = true := by
  intro pd usage date vs vd
  rcases pd with ⟨d, t, p, s, dl, sa⟩
  refine ⟨rfl, ?_, ?_, ?_, ?_, ?_⟩ <;>
    cases d <;> cases t <;> cases p <;> cases sa <;>
      simp [generate_project_report, isDescriptionItem, isTeamItem, isPlanItem,
        isStatusAnalysisItem, isUsageTable] <;>
      (rintro x - (rfl | rfl) <;> rfl)

/-- A system state with every report section populated, used to witness the
frame-effect theorem. -/
def mixed_sys : ProjectManagementSystem :=
  { token_tracker := TokenUsageTracker.init
  , report_data :=
    { project_description := some "old desc", team_info := some "old team"
    , project_plan := some "old plan", project_status := some "old status"
    , deliverables := some "old deliverables", status_analysis := some "old analysis" } }

/-- C10: a successful planning run writes exactly the keys
`project_description`, `team_info`, `project_plan` into the report state and
leaves `project_status`, `deliverables`, `status_analysis` unchanged; a
successful status-analysis run does the converse. -/
theorem entry_point_frame_effect :
    (∀ provider now sys pd ti r,
      (run_project_planning provider now sys pd ti).2.2 = Except.ok r →
      (run_project_planning provider now sys pd ti).1.report_data.project_status
          = sys.report_data.project_status ∧
      (run_project_planning provider now sys pd ti).1.report_data.deliverables
          = sys.report_data.deliverables ∧
      (run_project_planning provider now sys pd ti).1.report_data.status_analysis
          = sys.report_data.status_analysis ∧
      (run_project_planning provider now sys pd ti).1.report_data.project_description = some pd ∧
      (run_project_planning provider now sys pd ti).1.report_data.team_info = some ti ∧
      (run_project_planning provider now sys pd ti).1.report_data.project_plan = some r) ∧
    (∀ provider now sys ps dl r,
      (analyze_project_status provider now sys ps dl).2.2 = Except.ok r →
      (analyze_project_status provider now sys ps dl).1.report_data.project_description
          = sys.report_data.project_description ∧
      (analyze_project_status provider now sys ps dl).1.report_data.team_info
          = sys.report_data.team_info ∧
      (analyze_project_status provider now sys ps dl).1.report_data.project_plan
          = sys.report_data.project_plan ∧
      (analyze_project_status provider now sys ps dl).1.report_data.project_status = some ps ∧
      (analyze_project_status provider now sys ps dl).1.report_data.deliverables = some dl ∧
      (analyze_project_status provider now sys ps dl).1.report_data.status_analysis = some r) := by
  constructor
  · intro provider now sys pd ti r h
    rcases hseq : runSeq provider (planning_tasks pd ti) with ⟨calls, res⟩
    rcases res with e' | o
    · simp [run_project_planning, hseq] at h
    · rcases o with _ | result
      · simp [run_project_planning, hseq] at h
      · simp [run_project_planning, hseq] at h
        subst h
        simp [run_project_planning, hseq]
  · intro provider now sys ps dl r h
    rcases hseq : runSeq provider (analysis_tasks ps dl) with ⟨calls, res⟩
    rcases res with e' | o
    · simp [analyze_project_status, hseq] at h
    · rcases o with _ | result
      · simp [analyze_project_status, hseq] at h
      · simp [analyze_project_status, hseq] at h
        subst h
        simp [analyze_project_status, hseq]

/-- Witness for C10: concrete successful runs over a fully populated report
state; the planning run leaves the status section untouched and the
analysis run leaves the plan section untouched. -/
theorem entry_point_frame_effect_witness :
    (run_project_planning (fun _ _ => Except.ok "R") "12:00:00" mixed_sys "p" "t").1.report_data.project_status
      = mixed_sys.report_data.project_status ∧
    (analyze_project_status (fun _ _ => Except.ok "R") "12:00:01" mixed_sys "s" "d").1.report_data.project_plan
      = mixed_sys.report_data.project_plan :=
  ⟨(entry_point_frame_effect.1 (fun _ _ => Except.ok "R") "12:00:00" mixed_sys "p" "t" "R" rfl).1,
   (entry_point_frame_effect.2 (fun _ _ => Except.ok "R") "12:00:01" mixed_sys "s" "d" "R" rfl).2.2.1⟩

end PMAgent
